import Mathlib

/-!
Verification of the LC-3 virtual machine implemented in `LC3.c`.

The machine state (the global `memory` and `reg` arrays, the `running`
flag of the main loop, and the interaction of the host character
I/O provider) is embedded as an explicit `Config` record.  `uint16_t`
values are represented as `Nat`, with `% 65536` inserted exactly where
the C program converts an `int` computation back to `uint16_t`.  The
host input provider (`check_key` / `getchar`) is modelled by two lists
carried in the configuration: `readiness` is the stream of boolean
answers the `check_key` poll will receive, and `input` is the stream
of bytes `getchar` will deliver; bytes written with `putc`/`puts`
are appended to `output`.
-/

namespace LC3

/-! ## Constants from LC3.c -/

def MEMORY_MAX : Nat := 65536

def MR_KBSR : Nat := 0xFE00
def MR_KBDR : Nat := 0xFE02

def R_R0 : Nat := 0
def R_R7 : Nat := 7
def R_PC : Nat := 8
def R_COND : Nat := 9

def FL_POS : Nat := 1
def FL_ZRO : Nat := 2
def FL_NEG : Nat := 4

def TRAP_GETC : Nat := 0x20
def TRAP_OUT : Nat := 0x21
def TRAP_PUTS : Nat := 0x22
def TRAP_IN : Nat := 0x23
def TRAP_PUTSP : Nat := 0x24
def TRAP_HALT : Nat := 0x25

/-! ## Arithmetic helpers -/

/-- Embedding of `sign_extend` from LC3.c: if bit `bit_count - 1` of `x`
is set, the bits above it are filled with ones (`x |= 0xFFFF << bit_count`,
truncated to 16 bits by the `uint16_t` assignment). -/
def sign_extend (x : Nat) (bit_count : Nat) : Nat :=
  if (x >>> (bit_count - 1)) &&& 1 = 1 then
    (x ||| (0xFFFF <<< bit_count)) % 65536
  else
    x

/-- Embedding of `swap16` from LC3.c (big- to little-endian byte swap). -/
def swap16 (x : Nat) : Nat :=
  ((x <<< 8) ||| (x >>> 8)) % 65536

/-- Claim C4: for every bit width in 1..16 and every 16-bit input whose bit
`width-1` is set, `sign_extend` returns a word whose bits at positions
`width..15` are all 1 and whose low `width` bits equal the low bits of the input;
when the sign bit is clear and the bits above the width are zero, the input
is returned unchanged; in particular `sign_extend 0x1F 5 = 0xFFFF` and
`sign_extend 0x0F 5 = 0x000F`. -/
theorem C4_sign_extend (w x : Nat) (hw1 : 1 ≤ w) (hw16 : w ≤ 16) (hx : x < 65536) :
    (Nat.testBit x (w - 1) = true →
      (∀ i, w ≤ i → i < 16 → Nat.testBit (sign_extend x w) i = true) ∧
      (∀ i, i < w → Nat.testBit (sign_extend x w) i = Nat.testBit x i)) ∧
    (Nat.testBit x (w - 1) = false → (∀ i, w ≤ i → Nat.testBit x i = false) →
      sign_extend x w = x) ∧
    sign_extend 0x1F 5 = 0xFFFF ∧ sign_extend 0x0F 5 = 0x0F := by
  have h65536 : (65536 : Nat) = 2 ^ 16 := by norm_num
  have h65535 : (0xFFFF : Nat) = 2 ^ 16 - 1 := by norm_num
  refine ⟨?_, ?_, by decide, by decide⟩
  · intro hs
    have hc : (x >>> (w - 1)) &&& 1 = 1 := by
      rw [Nat.and_one_is_mod, Nat.shiftRight_eq_div_pow]
      rw [Nat.testBit_to_div_mod] at hs
      exact of_decide_eq_true hs
    unfold sign_extend
    rw [if_pos hc]
    constructor
    · intro i hwi hi16
      have hsub : i - w < 16 := by omega
      rw [h65536]
      simp only [Nat.testBit_mod_two_pow, Nat.testBit_or, Nat.testBit_shiftLeft, h65535,
        Nat.testBit_two_pow_sub_one]
      simp [hi16, hwi, hsub]
    · intro i hiw
      have hi16 : i < 16 := by omega
      have hnw : ¬ (i ≥ w) := by omega
      rw [h65536]
      simp only [Nat.testBit_mod_two_pow, Nat.testBit_or, Nat.testBit_shiftLeft, h65535,
        Nat.testBit_two_pow_sub_one]
      simp [hi16, hnw]
  · intro hs _
    unfold sign_extend
    rw [if_neg]
    intro hc
    rw [Nat.and_one_is_mod, Nat.shiftRight_eq_div_pow] at hc
    rw [Nat.testBit_to_div_mod] at hs
    exact absurd hc (of_decide_eq_false hs)

/-- Witness for C4 at width 5 and input 0x1F. -/
theorem C4_sign_extend_witness :
    (1 ≤ 5 ∧ 5 ≤ 16 ∧ 0x1F < 65536 ∧ Nat.testBit 0x1F 4 = true) ∧
    (∀ i, 5 ≤ i → i < 16 → Nat.testBit (sign_extend 0x1F 5) i = true) ∧
    (∀ i, i < 5 → Nat.testBit (sign_extend 0x1F 5) i = Nat.testBit 0x1F i) :=
  ⟨by decide, (C4_sign_extend 5 0x1F (by decide) (by decide) (by decide)).1 (by decide)⟩

/-! ## Machine state -/

/-- State of the virtual machine: the global `memory` and `reg` arrays of
LC3.c, the `running` flag of the main loop, an `aborted` flag recording that
`abort()` was reached, and the host I/O provider: `readiness` is the stream
of answers `check_key` will return, `input` the stream of bytes `getchar`
will deliver, `output` the bytes written so far. -/
@[ext]
structure Config where
  memory : Nat → Nat
  reg : Nat → Nat
  running : Bool
  aborted : Bool
  readiness : List Bool
  input : List Nat
  output : List Nat

/-- Pointwise update of a register or memory array. -/
def setf (f : Nat → Nat) (i v : Nat) : Nat → Nat :=
  fun j => if j = i then v else f j

/-- Embedding of `check_key`: the next answer of the host poll
(`WaitForSingleObject`/`_kbhit`), consumed from the `readiness` stream;
an exhausted stream answers `false` (no key pending). -/
def check_key (c : Config) : Bool × Config :=
  (c.readiness.headD false, { c with readiness := c.readiness.tail })

/-- Embedding of the host `getchar`: delivers the next input byte, or
`0xFFFF` (the `uint16_t` image of `EOF`) when the stream is exhausted. -/
def getchar (input : List Nat) : Nat × List Nat :=
  match input with
  | [] => (0xFFFF, [])
  | b :: rest => (b % 256, rest)

/-- Embedding of `mem_write` from LC3.c. -/
def mem_write (address val : Nat) (c : Config) : Config :=
  { c with memory := setf c.memory address val }

/-- Embedding of `mem_read` from LC3.c: reading the keyboard status
register polls `check_key` and updates `memory[MR_KBSR]` and
`memory[MR_KBDR]` before returning `memory[address]`; every other address
is a plain read. -/
def mem_read (address : Nat) (c : Config) : Nat × Config :=
  if address = MR_KBSR then
    let ck := check_key c
    let c2 :=
      if ck.1 then
        let g := getchar ck.2.input
        { ck.2 with
          memory := setf (setf ck.2.memory MR_KBSR (1 <<< 15)) MR_KBDR g.1,
          input := g.2 }
      else
        { ck.2 with memory := setf ck.2.memory MR_KBSR 0 }
    (c2.memory address, c2)
  else
    (c.memory address, c)

/-- Embedding of `update_flags` from LC3.c. -/
def update_flags (reg : Nat → Nat) (r : Nat) : Nat → Nat :=
  if reg r = 0 then setf reg R_COND FL_ZRO
  else if reg r >>> 15 ≠ 0 then setf reg R_COND FL_NEG
  else setf reg R_COND FL_POS

/-! ## Instruction semantics (the `case` blocks of the main loop) -/

/-- Case `OP_ADD` of the dispatch switch. -/
def op_add (instr : Nat) (c : Config) : Config :=
  let r0 := (instr >>> 9) &&& 0x7
  let r1 := (instr >>> 6) &&& 0x7
  let imm_flag := (instr >>> 5) &&& 0x1
  let c1 :=
    if imm_flag = 1 then
      let imm5 := sign_extend (instr &&& 0x1F) 5
      { c with reg := setf c.reg r0 ((c.reg r1 + imm5) % 65536) }
    else
      let r2 := instr &&& 0x7
      { c with reg := setf c.reg r0 ((c.reg r1 + c.reg r2) % 65536) }
  { c1 with reg := update_flags c1.reg r0 }

/-- Case `OP_AND` of the dispatch switch. -/
def op_and (instr : Nat) (c : Config) : Config :=
  let r0 := (instr >>> 9) &&& 0x7
  let r1 := (instr >>> 6) &&& 0x7
  let imm_flag := (instr >>> 5) &&& 0x1
  let c1 :=
    if imm_flag = 1 then
      let imm5 := sign_extend (instr &&& 0x1F) 5
      { c with reg := setf c.reg r0 ((c.reg r1 &&& imm5) % 65536) }
    else
      let r2 := instr &&& 0x7
      { c with reg := setf c.reg r0 ((c.reg r1 &&& c.reg r2) % 65536) }
  { c1 with reg := update_flags c1.reg r0 }

/-- Case `OP_NOT` of the dispatch switch.  As in the source, the
destination receives the 16-bit complement `(uint16_t)~reg[r1]` and
`update_flags` is NOT called (the source omits it). -/
def op_not (instr : Nat) (c : Config) : Config :=
  let r0 := (instr >>> 9) &&& 0x7
  let r1 := (instr >>> 6) &&& 0x7
  { c with reg := setf c.reg r0 ((c.reg r1 ^^^ 0xFFFF) % 65536) }

/-- Case `OP_BR` of the dispatch switch. -/
def op_br (instr : Nat) (c : Config) : Config :=
  let cond_flag := (instr >>> 9) &&& 0x7
  let pc_offset := sign_extend (instr &&& 0x1FF) 9
  if cond_flag &&& c.reg R_COND ≠ 0 then
    { c with reg := setf c.reg R_PC ((c.reg R_PC + pc_offset) % 65536) }
  else
    c

/-- Case `OP_JMP` of the dispatch switch. -/
def op_jmp (instr : Nat) (c : Config) : Config :=
  let r1 := (instr >>> 6) &&& 0x7
  { c with reg := setf c.reg R_PC (c.reg r1) }

/-- Case `OP_JSR` of the dispatch switch: the (already incremented)
program counter is saved in R7 first, then the jump is taken. -/
def op_jsr (instr : Nat) (c : Config) : Config :=
  let c1 := { c with reg := setf c.reg R_R7 (c.reg R_PC) }
  let long_flag := (instr >>> 11) &&& 0x1
  if long_flag = 1 then
    let pc_offset := sign_extend (instr &&& 0x7FF) 11
    { c1 with reg := setf c1.reg R_PC ((c1.reg R_PC + pc_offset) % 65536) }
  else
    let r1 := (instr >>> 6) &&& 0x7
    { c1 with reg := setf c1.reg R_PC (c1.reg r1) }

/-- Case `OP_LD` of the dispatch switch. -/
def op_ld (instr : Nat) (c : Config) : Config :=
  let r0 := (instr >>> 9) &&& 0x7
  let pc_offset := sign_extend (instr &&& 0x1FF) 9
  let rd := mem_read ((c.reg R_PC + pc_offset) % 65536) c
  let c1 := { rd.2 with reg := setf rd.2.reg r0 rd.1 }
  { c1 with reg := update_flags c1.reg r0 }

/-- Case `OP_LDI` of the dispatch switch.  The source performs a single
`mem_read(reg[R_PC] + pc_offset)` — there is no second dereference. -/
def op_ldi (instr : Nat) (c : Config) : Config :=
  let r0 := (instr >>> 9) &&& 0x7
  let pc_offset := sign_extend (instr &&& 0x1FF) 9
  let rd := mem_read ((c.reg R_PC + pc_offset) % 65536) c
  let c1 := { rd.2 with reg := setf rd.2.reg r0 rd.1 }
  { c1 with reg := update_flags c1.reg r0 }

/-- Case `OP_LDR` of the dispatch switch. -/
def op_ldr (instr : Nat) (c : Config) : Config :=
  let r0 := (instr >>> 9) &&& 0x7
  let r1 := (instr >>> 6) &&& 0x7
  let pc_offset := sign_extend (instr &&& 0x3F) 6
  let rd := mem_read ((c.reg r1 + pc_offset) % 65536) c
  let c1 := { rd.2 with reg := setf rd.2.reg r0 rd.1 }
  { c1 with reg := update_flags c1.reg r0 }

/-- Case `OP_LEA` of the dispatch switch. -/
def op_lea (instr : Nat) (c : Config) : Config :=
  let r0 := (instr >>> 9) &&& 0x7
  let pc_offset := sign_extend (instr &&& 0x1FF) 9
  let c1 := { c with reg := setf c.reg r0 ((c.reg R_PC + pc_offset) % 65536) }
  { c1 with reg := update_flags c1.reg r0 }

/-- Case `OP_ST` of the dispatch switch. -/
def op_st (instr : Nat) (c : Config) : Config :=
  let r0 := (instr >>> 9) &&& 0x7
  let pc_offset := sign_extend (instr &&& 0x1FF) 9
  mem_write ((c.reg R_PC + pc_offset) % 65536) (c.reg r0) c

/-- Case `OP_STI` of the dispatch switch: the address actually written is
the word read at `PC + offset` (one level of indirection on the store). -/
def op_sti (instr : Nat) (c : Config) : Config :=
  let r0 := (instr >>> 9) &&& 0x7
  let pc_offset := sign_extend (instr &&& 0x1FF) 9
  let rd := mem_read ((c.reg R_PC + pc_offset) % 65536) c
  mem_write (rd.1 % 65536) (rd.2.reg r0) rd.2

/-- Case `OP_STR` of the dispatch switch. -/
def op_str (instr : Nat) (c : Config) : Config :=
  let r0 := (instr >>> 9) &&& 0x7
  let r1 := (instr >>> 6) &&& 0x7
  let pc_offset := sign_extend (instr &&& 0x3F) 6
  mem_write ((c.reg r1 + pc_offset) % 65536) (c.reg r0) c

/-- Bytes written by `printf("Enter a character:")` in the `TRAP_IN`
routine. -/
def prompt_chars : List Nat :=
  [69, 110, 116, 101, 114, 32, 97, 32, 99, 104, 97, 114, 97, 99, 116, 101, 114, 58]

/-- Bytes written by `puts("HALT")` in the `TRAP_HALT` routine. -/
def halt_chars : List Nat := [72, 65, 76, 84, 10]

/-- Bytes emitted by the `TRAP_PUTS` loop: one low byte per word,
stopping at a zero word (the fuel bounds the scan, which in C walks
successive addresses). -/
def puts_chars (mem : Nat → Nat) (addr fuel : Nat) : List Nat :=
  match fuel with
  | 0 => []
  | f + 1 =>
    if mem addr = 0 then []
    else (mem addr % 256) :: puts_chars mem (addr + 1) f

/-- Bytes emitted by the `TRAP_PUTSP` loop: low byte, then the high byte
when it is nonzero, stopping at a zero word. -/
def putsp_chars (mem : Nat → Nat) (addr fuel : Nat) : List Nat :=
  match fuel with
  | 0 => []
  | f + 1 =>
    if mem addr = 0 then []
    else
      let char1 := mem addr &&& 0xFF
      let char2 := (mem addr >>> 8) % 256
      (char1 :: (if char2 ≠ 0 then [char2] else [])) ++ putsp_chars mem (addr + 1) f

/-- Image of a C `char` holding a `getchar` result when converted to
`uint16_t`, as in `reg[R_R0] = (uint16_t)c` of the `TRAP_IN` routine. -/
def char_cast (b : Nat) : Nat :=
  if b < 128 then b else if b < 256 then 65280 + b else 65535

/-- Case `OP_TRAP` of the dispatch switch: R7 receives the incremented
program counter, then the vector in the low byte is dispatched; the six
recognized vectors have routines, any other vector falls through the
inner `switch` (which has no `default`) and execution continues. -/
def op_trap (instr : Nat) (c : Config) : Config :=
  let c1 := { c with reg := setf c.reg R_R7 (c.reg R_PC) }
  let vect := instr &&& 0xFF
  if vect = TRAP_GETC then
    let g := getchar c1.input
    let c2 := { c1 with input := g.2, reg := setf c1.reg R_R0 g.1 }
    { c2 with reg := update_flags c2.reg R_R0 }
  else if vect = TRAP_OUT then
    { c1 with output := c1.output ++ [c1.reg R_R0 % 256] }
  else if vect = TRAP_PUTS then
    { c1 with output := c1.output ++ puts_chars c1.memory (c1.reg R_R0) 65536 }
  else if vect = TRAP_IN then
    let g := getchar c1.input
    let c2 := { c1 with
      input := g.2,
      output := c1.output ++ prompt_chars ++ [g.1 % 256],
      reg := setf c1.reg R_R0 (char_cast g.1) }
    { c2 with reg := update_flags c2.reg R_R0 }
  else if vect = TRAP_PUTSP then
    { c1 with output := c1.output ++ putsp_chars c1.memory (c1.reg R_R0) 65536 }
  else if vect = TRAP_HALT then
    { c1 with output := c1.output ++ halt_chars, running := false }
  else
    c1

/-- Dispatch on `op = instr >> 12`, mirroring the `switch` of the main
loop; `OP_RES`, `OP_RTI` and the `default` arm call `abort()`. -/
def exec_instr (instr : Nat) (c : Config) : Config :=
  let op := instr >>> 12
  if op = 1 then op_add instr c
  else if op = 5 then op_and instr c
  else if op = 9 then op_not instr c
  else if op = 0 then op_br instr c
  else if op = 12 then op_jmp instr c
  else if op = 4 then op_jsr instr c
  else if op = 2 then op_ld instr c
  else if op = 10 then op_ldi instr c
  else if op = 6 then op_ldr instr c
  else if op = 14 then op_lea instr c
  else if op = 3 then op_st instr c
  else if op = 11 then op_sti instr c
  else if op = 7 then op_str instr c
  else if op = 15 then op_trap instr c
  else { c with running := false, aborted := true }

/-- One iteration of the fetch-decode-execute loop:
`uint16_t instr = mem_read(reg[R_PC]++);` followed by the dispatch.
A stopped machine (`running = false`) does not step. -/
def step (c : Config) : Config :=
  if c.running then
    let pc := c.reg R_PC
    let c0 := { c with reg := setf c.reg R_PC ((pc + 1) % 65536) }
    let fr := mem_read pc c0
    exec_instr fr.1 fr.2
  else
    c

/-- Iterated stepping of the main loop. -/
def runN (n : Nat) (c : Config) : Config :=
  match n with
  | 0 => c
  | m + 1 => runN m (step c)

/-- State of the machine when the main loop is first entered: the global
arrays are zero-initialized, then `reg[R_COND] = FL_ZRO` and
`reg[R_PC] = PC_START = 0x3000` are set; `mem` is the memory produced
by image loading, and the two lists describe the host input provider. -/
def initial_config (mem : Nat → Nat) (rd : List Bool) (inp : List Nat) : Config :=
  { memory := mem,
    reg := fun i => if i = R_COND then FL_ZRO else if i = R_PC then 0x3000 else 0,
    running := true,
    aborted := false,
    readiness := rd,
    input := inp,
    output := [] }

/-! ## Concrete machine states used as inputs of the claims -/

/-- Memory for C1: at 0x3000 the instruction `LDI R0, #1` (0xA001); the
indirection cell `Memory[0x3001 + 1] = 0x3002` holds the target address
0x4000, and `Memory[0x4000]` holds the value 0x1234. -/
def c1_state : Config :=
  { memory := fun a =>
      if a = 0x3000 then 0xA001
      else if a = 0x3002 then 0x4000
      else if a = 0x4000 then 0x1234
      else 0,
    reg := fun i => if i = R_COND then FL_ZRO else if i = R_PC then 0x3000 else 0,
    running := true,
    aborted := false,
    readiness := [],
    input := [],
    output := [] }

/-- Claim C1 (code bug): the `OP_LDI` case performs a single `mem_read`
(its body is identical to `OP_LD`), so with `Memory[PC+off] = 0x4000`
(the target address) and `Memory[0x4000] = 0x1234` (the value), executing
`LDI R0, #1` loads 0x4000 — the intermediate address — into R0 instead of
the doubly-dereferenced value 0x1234 required by the claim and by the
comment in the source ("read that memory address to get the final
address"). -/
theorem C1_ldi_no_indirection :
    c1_state.memory ((0x3001 + sign_extend 1 9) % 65536) = 0x4000 ∧
    c1_state.memory 0x4000 = 0x1234 ∧
    (step c1_state).reg R_R0 = 0x4000 ∧
    (step c1_state).reg R_R0 ≠ 0x1234 := by
  decide

/-- Memory for C2: at 0x3000 the instruction `NOT R0, R1` (0x907F);
register 1 holds 1, and the condition flags hold FL_POS. -/
def c2_state : Config :=
  { memory := fun a => if a = 0x3000 then 0x907F else 0,
    reg := fun i =>
      if i = 1 then 1
      else if i = R_COND then FL_POS
      else if i = R_PC then 0x3000 else 0,
    running := true,
    aborted := false,
    readiness := [],
    input := [],
    output := [] }

/-- Claim C2 (code bug): the `OP_NOT` case stores the 16-bit complement
of the source into the destination, but — unlike ADD, AND, LD, LDI, LDR,
LEA — it never calls `update_flags`: after `NOT R0, R1` with
`reg[1] = 1`, R0 holds 0xFFFE (a negative value) yet the condition-flag
register still holds the stale FL_POS instead of FL_NEG. -/
theorem C2_not_skips_update_flags :
    (step c2_state).reg R_R0 = 0xFFFE ∧
    (step c2_state).reg R_COND = FL_POS ∧
    (step c2_state).reg R_COND ≠ FL_NEG := by
  decide

/-- Memory for C3: at 0x3000 a TRAP instruction with the unrecognized
vector 0x26 (0xF026). -/
def c3_state : Config :=
  { memory := fun a => if a = 0x3000 then 0xF026 else 0,
    reg := fun i => if i = R_COND then FL_ZRO else if i = R_PC then 0x3000 else 0,
    running := true,
    aborted := false,
    readiness := [],
    input := [],
    output := [] }

/-- Counterexample to claim C3: executing `TRAP 0x26` is NOT fatal.  The
inner `switch` on the trap vector has no `default` arm, so an
unrecognized vector falls through: the machine is still running, nothing
aborted, the program counter advanced to the next instruction, and R7
received the incremented PC — execution continues to the next fetch,
unlike the RTI/RES opcodes, which reach `abort()`. -/
theorem C3_unknown_trap_not_fatal :
    (step c3_state).running = true ∧
    (step c3_state).aborted = false ∧
    (step c3_state).reg R_PC = 0x3001 ∧
    (step c3_state).reg R_R7 = 0x3001 := by
  decide

/-! ## Frame lemmas -/

theorem setf_self (f : Nat → Nat) (i v : Nat) : setf f i v i = v := by
  simp [setf]

theorem setf_other (f : Nat → Nat) (i v j : Nat) (h : j ≠ i) : setf f i v j = f j := by
  simp [setf, h]

theorem and_seven_lt_eight (x : Nat) : x &&& 7 < 8 :=
  lt_of_le_of_lt Nat.and_le_right (by norm_num)

/-- The flag register after `update_flags` holds one of the three flags. -/
theorem update_flags_cond (reg : Nat → Nat) (r : Nat) :
    update_flags reg r R_COND = FL_POS ∨ update_flags reg r R_COND = FL_ZRO ∨
    update_flags reg r R_COND = FL_NEG := by
  unfold update_flags
  split
  · exact Or.inr (Or.inl (setf_self _ _ _))
  split
  · exact Or.inr (Or.inr (setf_self _ _ _))
  · exact Or.inl (setf_self _ _ _)

/-- Registers other than the flag register are untouched by `update_flags`. -/
theorem update_flags_other (reg : Nat → Nat) (r j : Nat) (h : j ≠ R_COND) :
    update_flags reg r j = reg j := by
  unfold update_flags
  split
  · exact setf_other _ _ _ _ h
  split
  · exact setf_other _ _ _ _ h
  · exact setf_other _ _ _ _ h

/-- A read from a plain address is pure: the returned value is the memory
cell and the configuration is returned unchanged. -/
theorem mem_read_ne (a : Nat) (c : Config) (h : a ≠ MR_KBSR) :
    mem_read a c = (c.memory a, c) := by
  unfold mem_read
  rw [if_neg h]

/-- A read never changes the registers, the running flags, or the output. -/
theorem mem_read_frame (a : Nat) (c : Config) :
    (mem_read a c).2.reg = c.reg ∧ (mem_read a c).2.running = c.running ∧
    (mem_read a c).2.aborted = c.aborted ∧ (mem_read a c).2.output = c.output := by
  by_cases ha : a = MR_KBSR
  · subst ha
    obtain ⟨mem, reg, run, ab, rd, inp, out⟩ := c
    rcases rd with _ | ⟨b, rest⟩
    · exact ⟨rfl, rfl, rfl, rfl⟩
    · cases b <;> exact ⟨rfl, rfl, rfl, rfl⟩
  · rw [mem_read_ne a c ha]
    exact ⟨rfl, rfl, rfl, rfl⟩

/-- Claim C7: `mem_read` mutates state only at the keyboard-status address
MR_KBSR = 0xFE00.  There it polls the provider: if a byte is ready the
status word becomes `1 <<< 15` (high bit set) and the next input byte is
copied to the data register MR_KBDR = 0xFE02, otherwise the status word is
cleared, and the (possibly updated) cell at the requested address is
returned; every other address, MR_KBDR included, is a pure read returning
`memory[address]` with every memory cell and register unchanged. -/
theorem C7_mem_read_mapped_io (c : Config) (a : Nat) :
    (a ≠ MR_KBSR → mem_read a c = (c.memory a, c)) ∧
    (a = MR_KBSR →
      (mem_read a c).2.reg = c.reg ∧
      (mem_read a c).2.running = c.running ∧
      (mem_read a c).2.output = c.output ∧
      (∀ b, b ≠ MR_KBSR → b ≠ MR_KBDR → (mem_read a c).2.memory b = c.memory b) ∧
      (mem_read a c).1 = (mem_read a c).2.memory a ∧
      (c.readiness.headD false = true →
        (mem_read a c).2.memory MR_KBSR = 1 <<< 15 ∧
        Nat.testBit ((mem_read a c).2.memory MR_KBSR) 15 = true ∧
        (mem_read a c).2.memory MR_KBDR = (getchar c.input).1) ∧
      (c.readiness.headD false = false →
        (mem_read a c).2.memory MR_KBSR = 0)) := by
  constructor
  · intro h
    exact mem_read_ne a c h
  · intro h
    subst h
    obtain ⟨mem, reg, run, ab, rd, inp, out⟩ := c
    rcases rd with _ | ⟨b, rest⟩
    · refine ⟨rfl, rfl, rfl, ?_, rfl, ?_, ?_⟩
      · intro b h1 h2
        simp only [mem_read, check_key, if_pos rfl]
        simp [setf, h1]
      · intro h
        simp at h
      · intro _
        simp only [mem_read, check_key, if_pos rfl]
        simp [setf]
    · cases b
      · refine ⟨rfl, rfl, rfl, ?_, rfl, ?_, ?_⟩
        · intro b h1 h2
          simp only [mem_read, check_key, if_pos rfl]
          simp [setf, h1]
        · intro h
          simp at h
        · intro _
          simp only [mem_read, check_key, if_pos rfl]
          simp [setf]
      · refine ⟨rfl, rfl, rfl, ?_, rfl, ?_, ?_⟩
        · intro b h1 h2
          simp only [mem_read, check_key, if_pos rfl]
          simp [setf, h1, h2]
        · intro _
          refine ⟨?_, ?_, ?_⟩
          · simp only [mem_read, check_key, if_pos rfl]
            simp [setf, MR_KBSR, MR_KBDR]
          · simp only [mem_read, check_key, if_pos rfl]
            simp [setf, MR_KBSR, MR_KBDR]
            decide
          · simp only [mem_read, check_key, if_pos rfl]
            simp [setf]
        · intro h
          simp at h

/-- Witness for C7: a pure read at address 5, and a status-register read
with a ready byte 65 pending. -/
def c7_state : Config :=
  { memory := fun a => if a = 5 then 77 else 0,
    reg := fun _ => 0,
    running := true,
    aborted := false,
    readiness := [true],
    input := [65],
    output := [] }

/-- Witness for C7 at the two kinds of addresses. -/
theorem C7_mem_read_mapped_io_witness :
    mem_read 5 c7_state = (c7_state.memory 5, c7_state) ∧
    (mem_read MR_KBSR c7_state).2.memory MR_KBSR = 1 <<< 15 ∧
    (mem_read MR_KBSR c7_state).2.memory MR_KBDR = (getchar c7_state.input).1 :=
  ⟨(C7_mem_read_mapped_io c7_state 5).1 (by decide),
   (((C7_mem_read_mapped_io c7_state MR_KBSR).2 rfl).2.2.2.2.2.1 (by decide)).1,
   (((C7_mem_read_mapped_io c7_state MR_KBSR).2 rfl).2.2.2.2.2.1 (by decide)).2.2⟩

theorem mem_read_reg (a : Nat) (c : Config) : (mem_read a c).2.reg = c.reg :=
  (mem_read_frame a c).1

theorem nine_ne_and_seven (x : Nat) : (9 : Nat) ≠ x &&& 7 := by
  have := and_seven_lt_eight x
  omega

theorem eight_ne_and_seven (x : Nat) : (8 : Nat) ≠ x &&& 7 := by
  have := and_seven_lt_eight x
  omega

/-! ## Dispatch equations: which handler runs for which opcode -/

theorem exec_instr_eq_add (instr : Nat) (c : Config) (h : instr >>> 12 = 1) :
    exec_instr instr c = op_add instr c := by
  simp [exec_instr, h]

theorem exec_instr_eq_and (instr : Nat) (c : Config) (h : instr >>> 12 = 5) :
    exec_instr instr c = op_and instr c := by
  simp [exec_instr, h]

theorem exec_instr_eq_not (instr : Nat) (c : Config) (h : instr >>> 12 = 9) :
    exec_instr instr c = op_not instr c := by
  simp [exec_instr, h]

theorem exec_instr_eq_br (instr : Nat) (c : Config) (h : instr >>> 12 = 0) :
    exec_instr instr c = op_br instr c := by
  simp [exec_instr, h]

theorem exec_instr_eq_jmp (instr : Nat) (c : Config) (h : instr >>> 12 = 12) :
    exec_instr instr c = op_jmp instr c := by
  simp [exec_instr, h]

theorem exec_instr_eq_jsr (instr : Nat) (c : Config) (h : instr >>> 12 = 4) :
    exec_instr instr c = op_jsr instr c := by
  simp [exec_instr, h]

theorem exec_instr_eq_ld (instr : Nat) (c : Config) (h : instr >>> 12 = 2) :
    exec_instr instr c = op_ld instr c := by
  simp [exec_instr, h]

theorem exec_instr_eq_ldi (instr : Nat) (c : Config) (h : instr >>> 12 = 10) :
    exec_instr instr c = op_ldi instr c := by
  simp [exec_instr, h]

theorem exec_instr_eq_ldr (instr : Nat) (c : Config) (h : instr >>> 12 = 6) :
    exec_instr instr c = op_ldr instr c := by
  simp [exec_instr, h]

theorem exec_instr_eq_lea (instr : Nat) (c : Config) (h : instr >>> 12 = 14) :
    exec_instr instr c = op_lea instr c := by
  simp [exec_instr, h]

theorem exec_instr_eq_st (instr : Nat) (c : Config) (h : instr >>> 12 = 3) :
    exec_instr instr c = op_st instr c := by
  simp [exec_instr, h]

theorem exec_instr_eq_sti (instr : Nat) (c : Config) (h : instr >>> 12 = 11) :
    exec_instr instr c = op_sti instr c := by
  simp [exec_instr, h]

theorem exec_instr_eq_str (instr : Nat) (c : Config) (h : instr >>> 12 = 7) :
    exec_instr instr c = op_str instr c := by
  simp [exec_instr, h]

theorem exec_instr_eq_trap (instr : Nat) (c : Config) (h : instr >>> 12 = 15) :
    exec_instr instr c = op_trap instr c := by
  simp [exec_instr, h]

/-- The `OP_RES`, `OP_RTI` and `default` arms of the switch reach
`abort()`. -/
theorem exec_instr_eq_abort (instr : Nat) (c : Config)
    (h : instr >>> 12 = 8 ∨ instr >>> 12 = 13 ∨ 16 ≤ instr >>> 12) :
    exec_instr instr c = { c with running := false, aborted := true } := by
  have h1 : instr >>> 12 ≠ 1 := by omega
  have h5 : instr >>> 12 ≠ 5 := by omega
  have h9 : instr >>> 12 ≠ 9 := by omega
  have h0 : instr >>> 12 ≠ 0 := by omega
  have h12 : instr >>> 12 ≠ 12 := by omega
  have h4 : instr >>> 12 ≠ 4 := by omega
  have h2 : instr >>> 12 ≠ 2 := by omega
  have h10 : instr >>> 12 ≠ 10 := by omega
  have h6 : instr >>> 12 ≠ 6 := by omega
  have h14 : instr >>> 12 ≠ 14 := by omega
  have h3 : instr >>> 12 ≠ 3 := by omega
  have h11 : instr >>> 12 ≠ 11 := by omega
  have h7 : instr >>> 12 ≠ 7 := by omega
  have h15 : instr >>> 12 ≠ 15 := by omega
  simp [exec_instr, h1, h5, h9, h0, h12, h4, h2, h10, h6, h14, h3, h11, h7, h15]

/-! ## Per-opcode register frame lemmas -/

theorem op_add_cond (instr : Nat) (c : Config) :
    (op_add instr c).reg R_COND = FL_POS ∨ (op_add instr c).reg R_COND = FL_ZRO ∨
    (op_add instr c).reg R_COND = FL_NEG :=
  update_flags_cond _ _

theorem op_and_cond (instr : Nat) (c : Config) :
    (op_and instr c).reg R_COND = FL_POS ∨ (op_and instr c).reg R_COND = FL_ZRO ∨
    (op_and instr c).reg R_COND = FL_NEG :=
  update_flags_cond _ _

theorem op_ld_cond (instr : Nat) (c : Config) :
    (op_ld instr c).reg R_COND = FL_POS ∨ (op_ld instr c).reg R_COND = FL_ZRO ∨
    (op_ld instr c).reg R_COND = FL_NEG :=
  update_flags_cond _ _

theorem op_ldi_cond (instr : Nat) (c : Config) :
    (op_ldi instr c).reg R_COND = FL_POS ∨ (op_ldi instr c).reg R_COND = FL_ZRO ∨
    (op_ldi instr c).reg R_COND = FL_NEG :=
  update_flags_cond _ _

theorem op_ldr_cond (instr : Nat) (c : Config) :
    (op_ldr instr c).reg R_COND = FL_POS ∨ (op_ldr instr c).reg R_COND = FL_ZRO ∨
    (op_ldr instr c).reg R_COND = FL_NEG :=
  update_flags_cond _ _

theorem op_lea_cond (instr : Nat) (c : Config) :
    (op_lea instr c).reg R_COND = FL_POS ∨ (op_lea instr c).reg R_COND = FL_ZRO ∨
    (op_lea instr c).reg R_COND = FL_NEG :=
  update_flags_cond _ _

theorem op_not_cond (instr : Nat) (c : Config) :
    (op_not instr c).reg R_COND = c.reg R_COND :=
  setf_other _ _ _ _ (nine_ne_and_seven _)

theorem op_br_cond (instr : Nat) (c : Config) :
    (op_br instr c).reg R_COND = c.reg R_COND := by
  unfold op_br
  dsimp only
  split
  · simp [setf, R_COND, R_PC]
  · rfl

theorem op_jmp_cond (instr : Nat) (c : Config) :
    (op_jmp instr c).reg R_COND = c.reg R_COND := by
  simp [op_jmp, setf, R_COND, R_PC]

theorem op_jsr_cond (instr : Nat) (c : Config) :
    (op_jsr instr c).reg R_COND = c.reg R_COND := by
  unfold op_jsr
  dsimp only
  split <;> simp [setf, R_COND, R_PC, R_R7]

theorem op_st_cond (instr : Nat) (c : Config) :
    (op_st instr c).reg R_COND = c.reg R_COND := rfl

theorem op_str_cond (instr : Nat) (c : Config) :
    (op_str instr c).reg R_COND = c.reg R_COND := rfl

theorem op_sti_cond (instr : Nat) (c : Config) :
    (op_sti instr c).reg R_COND = c.reg R_COND :=
  congrFun (mem_read_reg _ _) R_COND

theorem op_trap_cond (instr : Nat) (c : Config) :
    (op_trap instr c).reg R_COND = c.reg R_COND ∨
    (op_trap instr c).reg R_COND = FL_POS ∨ (op_trap instr c).reg R_COND = FL_ZRO ∨
    (op_trap instr c).reg R_COND = FL_NEG := by
  by_cases h32 : instr &&& 0xFF = 0x20
  · simp only [op_trap, TRAP_GETC, h32, if_pos rfl]
    exact Or.inr (update_flags_cond _ _)
  by_cases h33 : instr &&& 0xFF = 0x21
  · simp only [op_trap, TRAP_GETC, TRAP_OUT, h32, h33]
    left
    simp [setf, R_COND, R_R7]
  by_cases h34 : instr &&& 0xFF = 0x22
  · simp only [op_trap, TRAP_GETC, TRAP_OUT, TRAP_PUTS, h32, h33, h34]
    left
    simp [setf, R_COND, R_R7]
  by_cases h35 : instr &&& 0xFF = 0x23
  · simp only [op_trap, TRAP_GETC, TRAP_OUT, TRAP_PUTS, TRAP_IN, h32, h33, h34, h35]
    exact Or.inr (update_flags_cond _ _)
  by_cases h36 : instr &&& 0xFF = 0x24
  · simp only [op_trap, TRAP_GETC, TRAP_OUT, TRAP_PUTS, TRAP_IN, TRAP_PUTSP,
      h32, h33, h34, h35, h36]
    left
    simp [setf, R_COND, R_R7]
  by_cases h37 : instr &&& 0xFF = 0x25
  · simp only [op_trap, TRAP_GETC, TRAP_OUT, TRAP_PUTS, TRAP_IN, TRAP_PUTSP, TRAP_HALT,
      h32, h33, h34, h35, h36, h37]
    left
    simp [setf, R_COND, R_R7]
  · simp only [op_trap, TRAP_GETC, TRAP_OUT, TRAP_PUTS, TRAP_IN, TRAP_PUTSP, TRAP_HALT,
      if_neg h32, if_neg h33, if_neg h34, if_neg h35, if_neg h36, if_neg h37]
    left
    simp [setf, R_COND, R_R7]

theorem op_add_pc (instr : Nat) (c : Config) :
    (op_add instr c).reg R_PC = c.reg R_PC := by
  unfold op_add
  dsimp only
  split <;> simp [update_flags_other, setf, R_PC, R_COND, eight_ne_and_seven]

theorem op_and_pc (instr : Nat) (c : Config) :
    (op_and instr c).reg R_PC = c.reg R_PC := by
  unfold op_and
  dsimp only
  split <;> simp [update_flags_other, setf, R_PC, R_COND, eight_ne_and_seven]

theorem op_not_pc (instr : Nat) (c : Config) :
    (op_not instr c).reg R_PC = c.reg R_PC :=
  setf_other _ _ _ _ (eight_ne_and_seven _)

theorem op_ld_pc (instr : Nat) (c : Config) :
    (op_ld instr c).reg R_PC = c.reg R_PC := by
  unfold op_ld
  dsimp only
  simp [update_flags_other, setf, R_PC, R_COND, eight_ne_and_seven, mem_read_reg]

theorem op_ldi_pc (instr : Nat) (c : Config) :
    (op_ldi instr c).reg R_PC = c.reg R_PC := by
  unfold op_ldi
  dsimp only
  simp [update_flags_other, setf, R_PC, R_COND, eight_ne_and_seven, mem_read_reg]

theorem op_ldr_pc (instr : Nat) (c : Config) :
    (op_ldr instr c).reg R_PC = c.reg R_PC := by
  unfold op_ldr
  dsimp only
  simp [update_flags_other, setf, R_PC, R_COND, eight_ne_and_seven, mem_read_reg]

theorem op_lea_pc (instr : Nat) (c : Config) :
    (op_lea instr c).reg R_PC = c.reg R_PC := by
  unfold op_lea
  dsimp only
  simp [update_flags_other, setf, R_PC, R_COND, eight_ne_and_seven]

theorem op_st_pc (instr : Nat) (c : Config) :
    (op_st instr c).reg R_PC = c.reg R_PC := rfl

theorem op_str_pc (instr : Nat) (c : Config) :
    (op_str instr c).reg R_PC = c.reg R_PC := rfl

theorem op_sti_pc (instr : Nat) (c : Config) :
    (op_sti instr c).reg R_PC = c.reg R_PC :=
  congrFun (mem_read_reg _ _) R_PC

theorem op_trap_pc (instr : Nat) (c : Config) :
    (op_trap instr c).reg R_PC = c.reg R_PC := by
  by_cases h32 : instr &&& 0xFF = 0x20
  · simp only [op_trap, TRAP_GETC, h32, if_pos rfl]
    simp [update_flags_other, setf, R_PC, R_COND, R_R7, R_R0]
  by_cases h33 : instr &&& 0xFF = 0x21
  · simp only [op_trap, TRAP_GETC, TRAP_OUT, h32, h33]
    simp [setf, R_PC, R_R7]
  by_cases h34 : instr &&& 0xFF = 0x22
  · simp only [op_trap, TRAP_GETC, TRAP_OUT, TRAP_PUTS, h32, h33, h34]
    simp [setf, R_PC, R_R7]
  by_cases h35 : instr &&& 0xFF = 0x23
  · simp only [op_trap, TRAP_GETC, TRAP_OUT, TRAP_PUTS, TRAP_IN, h32, h33, h34, h35]
    simp [update_flags_other, setf, R_PC, R_COND, R_R7, R_R0]
  by_cases h36 : instr &&& 0xFF = 0x24
  · simp only [op_trap, TRAP_GETC, TRAP_OUT, TRAP_PUTS, TRAP_IN, TRAP_PUTSP,
      h32, h33, h34, h35, h36]
    simp [setf, R_PC, R_R7]
  by_cases h37 : instr &&& 0xFF = 0x25
  · simp only [op_trap, TRAP_GETC, TRAP_OUT, TRAP_PUTS, TRAP_IN, TRAP_PUTSP, TRAP_HALT,
      h32, h33, h34, h35, h36, h37]
    simp [setf, R_PC, R_R7]
  · simp only [op_trap, TRAP_GETC, TRAP_OUT, TRAP_PUTS, TRAP_IN, TRAP_PUTSP, TRAP_HALT,
      if_neg h32, if_neg h33, if_neg h34, if_neg h35, if_neg h36, if_neg h37]
    simp [setf, R_PC, R_R7]

/-- After any dispatched instruction the flag register is either untouched
or freshly written (by `update_flags`) with one of the three flags. -/
theorem exec_instr_cond (instr : Nat) (c : Config) :
    (exec_instr instr c).reg R_COND = c.reg R_COND ∨
    (exec_instr instr c).reg R_COND = FL_POS ∨
    (exec_instr instr c).reg R_COND = FL_ZRO ∨
    (exec_instr instr c).reg R_COND = FL_NEG := by
  by_cases h1 : instr >>> 12 = 1
  · rw [exec_instr_eq_add instr c h1]
    exact Or.inr (op_add_cond instr c)
  by_cases h5 : instr >>> 12 = 5
  · rw [exec_instr_eq_and instr c h5]
    exact Or.inr (op_and_cond instr c)
  by_cases h9 : instr >>> 12 = 9
  · rw [exec_instr_eq_not instr c h9]
    exact Or.inl (op_not_cond instr c)
  by_cases h0 : instr >>> 12 = 0
  · rw [exec_instr_eq_br instr c h0]
    exact Or.inl (op_br_cond instr c)
  by_cases h12 : instr >>> 12 = 12
  · rw [exec_instr_eq_jmp instr c h12]
    exact Or.inl (op_jmp_cond instr c)
  by_cases h4 : instr >>> 12 = 4
  · rw [exec_instr_eq_jsr instr c h4]
    exact Or.inl (op_jsr_cond instr c)
  by_cases h2 : instr >>> 12 = 2
  · rw [exec_instr_eq_ld instr c h2]
    exact Or.inr (op_ld_cond instr c)
  by_cases h10 : instr >>> 12 = 10
  · rw [exec_instr_eq_ldi instr c h10]
    exact Or.inr (op_ldi_cond instr c)
  by_cases h6 : instr >>> 12 = 6
  · rw [exec_instr_eq_ldr instr c h6]
    exact Or.inr (op_ldr_cond instr c)
  by_cases h14 : instr >>> 12 = 14
  · rw [exec_instr_eq_lea instr c h14]
    exact Or.inr (op_lea_cond instr c)
  by_cases h3 : instr >>> 12 = 3
  · rw [exec_instr_eq_st instr c h3]
    exact Or.inl (op_st_cond instr c)
  by_cases h11 : instr >>> 12 = 11
  · rw [exec_instr_eq_sti instr c h11]
    exact Or.inl (op_sti_cond instr c)
  by_cases h7 : instr >>> 12 = 7
  · rw [exec_instr_eq_str instr c h7]
    exact Or.inl (op_str_cond instr c)
  by_cases h15 : instr >>> 12 = 15
  · rw [exec_instr_eq_trap instr c h15]
    exact op_trap_cond instr c
  · rw [exec_instr_eq_abort instr c (by omega)]
    exact Or.inl rfl

/-- After any dispatched instruction whose opcode is not BR, JSR or JMP,
the program counter register is untouched. -/
theorem exec_instr_pc (instr : Nat) (c : Config) (hbr : instr >>> 12 ≠ 0)
    (hjsr : instr >>> 12 ≠ 4) (hjmp : instr >>> 12 ≠ 12) :
    (exec_instr instr c).reg R_PC = c.reg R_PC := by
  by_cases h1 : instr >>> 12 = 1
  · rw [exec_instr_eq_add instr c h1]
    exact op_add_pc instr c
  by_cases h5 : instr >>> 12 = 5
  · rw [exec_instr_eq_and instr c h5]
    exact op_and_pc instr c
  by_cases h9 : instr >>> 12 = 9
  · rw [exec_instr_eq_not instr c h9]
    exact op_not_pc instr c
  by_cases h2 : instr >>> 12 = 2
  · rw [exec_instr_eq_ld instr c h2]
    exact op_ld_pc instr c
  by_cases h10 : instr >>> 12 = 10
  · rw [exec_instr_eq_ldi instr c h10]
    exact op_ldi_pc instr c
  by_cases h6 : instr >>> 12 = 6
  · rw [exec_instr_eq_ldr instr c h6]
    exact op_ldr_pc instr c
  by_cases h14 : instr >>> 12 = 14
  · rw [exec_instr_eq_lea instr c h14]
    exact op_lea_pc instr c
  by_cases h3 : instr >>> 12 = 3
  · rw [exec_instr_eq_st instr c h3]
    exact op_st_pc instr c
  by_cases h11 : instr >>> 12 = 11
  · rw [exec_instr_eq_sti instr c h11]
    exact op_sti_pc instr c
  by_cases h7 : instr >>> 12 = 7
  · rw [exec_instr_eq_str instr c h7]
    exact op_str_pc instr c
  by_cases h15 : instr >>> 12 = 15
  · rw [exec_instr_eq_trap instr c h15]
    exact op_trap_pc instr c
  · rw [exec_instr_eq_abort instr c (by omega)]

/-! ## Step-level lemmas -/

/-- When the program counter is not the keyboard-status address, one loop
iteration fetches `memory[PC]`, increments the PC, and dispatches. -/
theorem step_eq_of_ne (c : Config) (hrun : c.running = true) (hpc : c.reg R_PC ≠ MR_KBSR) :
    step c = exec_instr (c.memory (c.reg R_PC))
      { c with reg := setf c.reg R_PC ((c.reg R_PC + 1) % 65536) } := by
  unfold step
  rw [if_pos hrun]
  dsimp only
  rw [mem_read_ne _ _ hpc]

/-- Any step leaves the flag register untouched or sets one of the three
flags. -/
theorem step_cond (c : Config) :
    (step c).reg R_COND = c.reg R_COND ∨ (step c).reg R_COND = FL_POS ∨
    (step c).reg R_COND = FL_ZRO ∨ (step c).reg R_COND = FL_NEG := by
  unfold step
  split
  · dsimp only
    rcases exec_instr_cond
        (mem_read (c.reg R_PC) { c with reg := setf c.reg R_PC ((c.reg R_PC + 1) % 65536) }).1
        (mem_read (c.reg R_PC) { c with reg := setf c.reg R_PC ((c.reg R_PC + 1) % 65536) }).2
      with h | h
    · left
      rw [h, mem_read_reg]
      simp [setf, R_COND, R_PC]
    · right
      exact h
  · exact Or.inl rfl

/-- The standing invariant of the flag register: it holds one of
FL_POS, FL_ZRO, FL_NEG. -/
def flagOK (c : Config) : Prop :=
  c.reg R_COND = FL_POS ∨ c.reg R_COND = FL_ZRO ∨ c.reg R_COND = FL_NEG

theorem step_flagOK (c : Config) (h : flagOK c) : flagOK (step c) := by
  rcases step_cond c with hc | hc | hc | hc
  · rcases h with h | h | h
    · exact Or.inl (hc.trans h)
    · exact Or.inr (Or.inl (hc.trans h))
    · exact Or.inr (Or.inr (hc.trans h))
  · exact Or.inl hc
  · exact Or.inr (Or.inl hc)
  · exact Or.inr (Or.inr hc)

theorem runN_flagOK (n : Nat) (c : Config) (h : flagOK c) : flagOK (runN n c) := by
  induction n generalizing c with
  | zero => exact h
  | succ m ih => exact ih (step c) (step_flagOK c h)

/-- Claim C5: the condition-flag register always holds exactly one of the
three flag values: the setup code initializes it to FL_ZRO before the
first fetch, every step of the fetch-decode-execute loop preserves
membership in {FL_POS, FL_ZRO, FL_NEG} (only `update_flags` ever writes
it, and it always stores one of the three), and hence every state
reachable from an initial configuration satisfies the invariant. -/
theorem C5_flag_invariant :
    (∀ mem rd inp, (initial_config mem rd inp).reg R_COND = FL_ZRO) ∧
    (∀ c, flagOK c → flagOK (step c)) ∧
    (∀ n mem rd inp, flagOK (runN n (initial_config mem rd inp))) := by
  refine ⟨fun mem rd inp => rfl, step_flagOK, fun n mem rd inp => ?_⟩
  exact runN_flagOK n _ (Or.inr (Or.inl rfl))

/-- Witness for C5: the preservation part applied to a concrete state. -/
theorem C5_flag_invariant_witness :
    flagOK c2_state ∧ flagOK (step c2_state) :=
  ⟨Or.inl rfl, C5_flag_invariant.2.1 c2_state (Or.inl rfl)⟩

/-- Claim C10: every register selector decoded from an operand field is
masked with 0x7 and so lies in 0..7; consequently no instruction can reach
the program counter (index 8) or the flag register (index 9) through a
destination/source field: for any fetch whose opcode is not BR, JSR or
JMP the program counter changes only by the fetch increment, and the flag
register is only ever left unchanged or rewritten by `update_flags`. -/
theorem C10_selector_safety (c : Config) :
    (∀ instr : Nat,
      (instr >>> 9) &&& 0x7 < 8 ∧ (instr >>> 6) &&& 0x7 < 8 ∧ instr &&& 0x7 < 8) ∧
    (c.running = true → c.reg R_PC ≠ MR_KBSR →
      c.memory (c.reg R_PC) >>> 12 ≠ 0 →
      c.memory (c.reg R_PC) >>> 12 ≠ 4 →
      c.memory (c.reg R_PC) >>> 12 ≠ 12 →
      (step c).reg R_PC = (c.reg R_PC + 1) % 65536) ∧
    ((step c).reg R_COND = c.reg R_COND ∨ (step c).reg R_COND = FL_POS ∨
     (step c).reg R_COND = FL_ZRO ∨ (step c).reg R_COND = FL_NEG) := by
  refine ⟨fun instr =>
    ⟨and_seven_lt_eight _, and_seven_lt_eight _, and_seven_lt_eight _⟩, ?_, step_cond c⟩
  intro hrun hpc h0 h4 h12
  rw [step_eq_of_ne c hrun hpc, exec_instr_pc _ _ h0 h4 h12]
  simp [setf]

/-- Machine state for the C10 witness: `ADD R0, R0, #1` at 0x3000. -/
def c10_state : Config :=
  { memory := fun a => if a = 0x3000 then 0x1021 else 0,
    reg := fun i => if i = R_COND then FL_ZRO else if i = R_PC then 0x3000 else 0,
    running := true,
    aborted := false,
    readiness := [],
    input := [],
    output := [] }

/-- Witness for C10 on a concrete ADD instruction. -/
theorem C10_selector_safety_witness :
    ((0x1021 >>> 9) &&& 0x7 < 8 ∧ (0x1021 >>> 6) &&& 0x7 < 8 ∧ 0x1021 &&& 0x7 < 8) ∧
    (step c10_state).reg R_PC = (c10_state.reg R_PC + 1) % 65536 :=
  ⟨(C10_selector_safety c10_state).1 0x1021,
   (C10_selector_safety c10_state).2.1 rfl (by decide) (by decide) (by decide) (by decide)⟩

/-- Claim C3 as amended: executing a TRAP instruction whose 8-bit vector
is none of the six recognized vectors 0x20..0x25 is NOT fatal (the inner
switch has no default arm): the step only saves the incremented program
counter into R7 and execution continues with the next fetch; memory,
output, input and every other register are unchanged, and no abort
occurs.  (Only the opcodes RTI and RES reach `abort()`.) -/
theorem C3_unknown_trap_amended (c : Config) (hrun : c.running = true)
    (hab : c.aborted = false)
    (hpc : c.reg R_PC ≠ MR_KBSR)
    (hop : c.memory (c.reg R_PC) >>> 12 = 15)
    (hvec : c.memory (c.reg R_PC) &&& 0xFF ≠ 0x20 ∧
      c.memory (c.reg R_PC) &&& 0xFF ≠ 0x21 ∧ c.memory (c.reg R_PC) &&& 0xFF ≠ 0x22 ∧
      c.memory (c.reg R_PC) &&& 0xFF ≠ 0x23 ∧ c.memory (c.reg R_PC) &&& 0xFF ≠ 0x24 ∧
      c.memory (c.reg R_PC) &&& 0xFF ≠ 0x25) :
    (step c).running = true ∧ (step c).aborted = false ∧
    (step c).memory = c.memory ∧ (step c).output = c.output ∧
    (step c).input = c.input ∧
    (step c).reg R_PC = (c.reg R_PC + 1) % 65536 ∧
    (step c).reg R_R7 = (c.reg R_PC + 1) % 65536 ∧
    (∀ j, j ≠ R_PC → j ≠ R_R7 → (step c).reg j = c.reg j) := by
  obtain ⟨h32, h33, h34, h35, h36, h37⟩ := hvec
  have hstep : step c = { c with reg := (setf (setf c.reg R_PC ((c.reg R_PC + 1) % 65536))
      R_R7 (setf c.reg R_PC ((c.reg R_PC + 1) % 65536) R_PC)) } := by
    rw [step_eq_of_ne c hrun hpc, exec_instr_eq_trap _ _ hop]
    simp only [op_trap, TRAP_GETC, TRAP_OUT, TRAP_PUTS, TRAP_IN, TRAP_PUTSP, TRAP_HALT,
      if_neg h32, if_neg h33, if_neg h34, if_neg h35, if_neg h36, if_neg h37]
  rw [hstep]
  refine ⟨hrun, hab, rfl, rfl, rfl, ?_, ?_, ?_⟩
  · simp [setf, R_PC, R_R7]
  · simp [setf, R_PC, R_R7]
  · intro j hj8 hj7
    simp only [R_PC, R_R7] at hj8 hj7
    simp [setf, R_PC, R_R7, hj8, hj7]

/-- Witness for the amended C3 statement at the concrete TRAP 0x26 state. -/
theorem C3_unknown_trap_amended_witness :
    (c3_state.running = true ∧ c3_state.reg R_PC ≠ MR_KBSR ∧
      c3_state.memory (c3_state.reg R_PC) >>> 12 = 15 ∧
      c3_state.memory (c3_state.reg R_PC) &&& 0xFF = 0x26) ∧
    ((step c3_state).running = true ∧ (step c3_state).aborted = false ∧
      (step c3_state).memory = c3_state.memory ∧
      (step c3_state).output = c3_state.output ∧
      (step c3_state).input = c3_state.input ∧
      (step c3_state).reg R_PC = (c3_state.reg R_PC + 1) % 65536 ∧
      (step c3_state).reg R_R7 = (c3_state.reg R_PC + 1) % 65536 ∧
      (∀ j, j ≠ R_PC → j ≠ R_R7 → (step c3_state).reg j = c3_state.reg j)) :=
  ⟨⟨rfl, by decide, by decide, by decide⟩,
   C3_unknown_trap_amended c3_state rfl rfl (by decide) (by decide)
     ⟨by decide, by decide, by decide, by decide, by decide, by decide⟩⟩

/-- Claim C8: a JSR step stores the already incremented program counter
(the address of the instruction after the JSR) into R7; if after the
subroutine body R7 still holds that value (the subroutine does not modify
R7) and the next fetched instruction is `JMP R7`, the program counter
after that jump is exactly the address following the original JSR. -/
theorem C8_jsr_return (s s2 : Config)
    (hrun : s.running = true) (hpc : s.reg R_PC ≠ MR_KBSR)
    (hop : s.memory (s.reg R_PC) >>> 12 = 4)
    (hrun2 : s2.running = true) (hpc2 : s2.reg R_PC ≠ MR_KBSR)
    (hop2 : s2.memory (s2.reg R_PC) >>> 12 = 12)
    (hbase : (s2.memory (s2.reg R_PC) >>> 6) &&& 0x7 = 7)
    (hr7 : s2.reg R_R7 = (step s).reg R_R7) :
    (step s).reg R_R7 = (s.reg R_PC + 1) % 65536 ∧
    (step s2).reg R_PC = (s.reg R_PC + 1) % 65536 := by
  have h1 : (step s).reg R_R7 = (s.reg R_PC + 1) % 65536 := by
    rw [step_eq_of_ne s hrun hpc, exec_instr_eq_jsr _ _ hop]
    unfold op_jsr
    dsimp only
    split
    · simp [setf, R_PC, R_R7]
    · simp [setf, R_PC, R_R7]
  refine ⟨h1, ?_⟩
  rw [step_eq_of_ne s2 hrun2 hpc2, exec_instr_eq_jmp _ _ hop2]
  unfold op_jmp
  dsimp only
  rw [setf_self, hbase, setf_other _ _ _ _ (show (7 : Nat) ≠ R_PC by decide)]
  exact hr7.trans h1

/-- Machine state for the C8 witness: `JSR #2` at 0x3000. -/
def c8_state : Config :=
  { memory := fun a => if a = 0x3000 then 0x4802 else 0,
    reg := fun i => if i = R_COND then FL_ZRO else if i = R_PC then 0x3000 else 0,
    running := true,
    aborted := false,
    readiness := [],
    input := [],
    output := [] }

/-- Machine state for the C8 witness after the subroutine body: the next
instruction is `JMP R7` (0xC1C0) and R7 still holds the saved return
address 0x3001. -/
def c8_sub_state : Config :=
  { memory := fun a => if a = 0x3003 then 0xC1C0 else 0,
    reg := fun i =>
      if i = R_R7 then 0x3001
      else if i = R_COND then FL_ZRO
      else if i = R_PC then 0x3003 else 0,
    running := true,
    aborted := false,
    readiness := [],
    input := [],
    output := [] }

/-- Witness for C8 with a concrete JSR at 0x3000 returning via JMP R7. -/
theorem C8_jsr_return_witness :
    (c8_state.memory (c8_state.reg R_PC) >>> 12 = 4 ∧
      c8_sub_state.memory (c8_sub_state.reg R_PC) >>> 12 = 12 ∧
      (c8_sub_state.memory (c8_sub_state.reg R_PC) >>> 6) &&& 0x7 = 7 ∧
      c8_sub_state.reg R_R7 = (step c8_state).reg R_R7) ∧
    ((step c8_state).reg R_R7 = (c8_state.reg R_PC + 1) % 65536 ∧
      (step c8_sub_state).reg R_PC = (c8_state.reg R_PC + 1) % 65536) :=
  ⟨⟨by decide, by decide, by decide, by decide⟩,
   C8_jsr_return c8_state c8_sub_state rfl (by decide) (by decide) rfl (by decide)
     (by decide) (by decide) (by decide)⟩

/-- Claim C6: ADD (respectively AND) in immediate mode and in register
mode produce identical machine states — in particular the same
destination value and the same condition flags — whenever the register
operand holds the sign-extended 5-bit immediate. -/
theorem C6_imm_reg_equiv (c : Config) (iI iR : Nat)
    (hop : (iI >>> 12 = 1 ∧ iR >>> 12 = 1) ∨ (iI >>> 12 = 5 ∧ iR >>> 12 = 5))
    (hdst : (iI >>> 9) &&& 0x7 = (iR >>> 9) &&& 0x7)
    (hsrc : (iI >>> 6) &&& 0x7 = (iR >>> 6) &&& 0x7)
    (hflagI : (iI >>> 5) &&& 0x1 = 1)
    (hflagR : (iR >>> 5) &&& 0x1 = 0)
    (heq : c.reg (iR &&& 0x7) = sign_extend (iI &&& 0x1F) 5) :
    exec_instr iI c = exec_instr iR c := by
  have hRneg : ¬ ((iR >>> 5) &&& 0x1 = 1) := by
    rw [hflagR]
    decide
  rcases hop with ⟨hI, hR⟩ | ⟨hI, hR⟩
  · rw [exec_instr_eq_add _ _ hI, exec_instr_eq_add _ _ hR]
    unfold op_add
    dsimp only
    rw [if_pos hflagI, if_neg hRneg, hdst, hsrc, heq]
  · rw [exec_instr_eq_and _ _ hI, exec_instr_eq_and _ _ hR]
    unfold op_and
    dsimp only
    rw [if_pos hflagI, if_neg hRneg, hdst, hsrc, heq]

/-- Machine state for the C6 witness: register 1 holds 10, register 2
holds 5 (the value of the sign-extended immediate). -/
def c6_state : Config :=
  { memory := fun _ => 0,
    reg := fun i =>
      if i = 1 then 10
      else if i = 2 then 5
      else if i = R_COND then FL_ZRO
      else if i = R_PC then 0x3000 else 0,
    running := true,
    aborted := false,
    readiness := [],
    input := [],
    output := [] }

/-- Witness for C6: `ADD R0, R1, #5` versus `ADD R0, R1, R2` with
`reg[2] = 5`. -/
theorem C6_imm_reg_equiv_witness :
    ((0x1065 >>> 12 = 1 ∧ 0x1042 >>> 12 = 1) ∧
      (0x1065 >>> 9) &&& 0x7 = (0x1042 >>> 9) &&& 0x7 ∧
      (0x1065 >>> 6) &&& 0x7 = (0x1042 >>> 6) &&& 0x7 ∧
      (0x1065 >>> 5) &&& 0x1 = 1 ∧ (0x1042 >>> 5) &&& 0x1 = 0 ∧
      c6_state.reg (0x1042 &&& 0x7) = sign_extend (0x1065 &&& 0x1F) 5) ∧
    exec_instr 0x1065 c6_state = exec_instr 0x1042 c6_state :=
  ⟨⟨by decide, by decide, by decide, by decide, by decide, by decide⟩,
   C6_imm_reg_equiv c6_state 0x1065 0x1042 (Or.inl ⟨by decide, by decide⟩)
     (by decide) (by decide) (by decide) (by decide) (by decide)⟩

/-- Claim C9: execution is deterministic.  All interaction with the host
is captured by the `readiness` answer stream, the `input` byte stream and
the `output` byte list, so two configurations that agree on memory,
registers, the loop flags and those streams produce identical runs — the
timing of byte availability enters only through the `readiness` booleans. -/
theorem C9_determinism (n : Nat) (c1 c2 : Config)
    (hmem : c1.memory = c2.memory) (hreg : c1.reg = c2.reg)
    (hrun : c1.running = c2.running) (hab : c1.aborted = c2.aborted)
    (hrd : c1.readiness = c2.readiness) (hin : c1.input = c2.input)
    (hout : c1.output = c2.output) :
    runN n c1 = runN n c2 := by
  have hc : c1 = c2 := by
    obtain ⟨m1, r1, ru1, a1, rd1, i1, o1⟩ := c1
    obtain ⟨m2, r2, ru2, a2, rd2, i2, o2⟩ := c2
    dsimp only at hmem hreg hrun hab hrd hin hout
    subst hmem
    subst hreg
    subst hrun
    subst hab
    subst hrd
    subst hin
    subst hout
    rfl
  rw [hc]

/-- Witness for C9: two textually identical one-instruction machines. -/
theorem C9_determinism_witness :
    runN 2 c10_state = runN 2 c10_state :=
  C9_determinism 2 c10_state c10_state rfl rfl rfl rfl rfl rfl rfl
